import Mathlib

/-!
Shallow embedding of the Catalog & Order Synchronization Layer of the
centery-app repository (src/products.ts, src/orders.ts, src/utils/feishu.ts).

External rows of the Feishu bitable service model scalar fields as arrays of
rich-text spans or as plain values; effectful steps (D1 address lookup, Feishu
record fetch, batch create, media fetch, edge cache) are modelled by explicit
parameters and by a trace of the external calls a code path performs.
-/

namespace Centery

/- ## Primitives: rich-text spans, attachments, JS numeric parsing -/

/-- One rich-text span of a Feishu bitable cell: an object carrying a text. -/
structure TextSpan where
  text : String
deriving DecidableEq, Repr

/-- One attachment object of a Feishu bitable cell (image fields). -/
structure Attachment where
  file_token : String
  url : String
deriving DecidableEq, Repr

/-- Accumulate the maximal leading run of decimal digits, as parseInt does. -/
def parseDigits : List Char → Nat → Nat
  | [], acc => acc
  | c :: cs, acc => if c.isDigit then parseDigits cs (acc * 10 + (c.toNat - 48)) else acc

/-- Whether the character list starts with a decimal digit. -/
def startsWithDigit : List Char → Bool
  | [] => false
  | c :: _ => c.isDigit

/-- JS whitespace characters relevant to parseInt's leading trim. -/
def isJsSpace (c : Char) : Bool :=
  c == ' ' || c == '\t' || c == '\n' || c == '\r'

/-- Drop leading whitespace, as parseInt does before parsing. -/
def dropSpaces : List Char → List Char
  | [] => []
  | c :: cs => if isJsSpace c then dropSpaces cs else c :: cs

/-- JS parseInt(s, 10): optional sign then a maximal digit run; none models NaN. -/
def jsParseInt (s : String) : Option Int :=
  match dropSpaces s.toList with
  | '-' :: rest => if startsWithDigit rest then some (-(parseDigits rest 0 : Int)) else none
  | '+' :: rest => if startsWithDigit rest then some ((parseDigits rest 0 : Int)) else none
  | cs => if startsWithDigit cs then some ((parseDigits cs 0 : Int)) else none

/- ## Catalog Query (src/products.ts) -/

/-- A raw product row as returned by the Feishu records search, with exactly the
fields fetchProductsFromFeishu reads; every field may be absent. -/
structure ProductRow where
  record_id : String
  name : Option (List TextSpan)        -- 商品名称
  price : Option Rat                   -- 商品单价
  stock : Option Int                   -- 库存剩余
  image : Option (List Attachment)     -- 商品图片
  description : Option (List TextSpan) -- 商品描述
  type : Option String                 -- 类型
  unit : Option String                 -- 单位
deriving DecidableEq, Repr

/-- The normalized product shape produced by fetchProductsFromFeishu. -/
structure Product where
  id : String
  name : String
  price : Rat
  stock : Int
  image : String
  description : String
  type : String
  unit : String
deriving DecidableEq, Repr

/-- The row-to-Product mapping inside fetchProductsFromFeishu (the map over
data.items): guarded field accesses with JS-truthiness defaults. -/
def mapFeishuRowToProduct (row : ProductRow) : Product :=
  { id := row.record_id
    name := match row.name with
      | some (s :: _) => s.text
      | _ => "Unnamed Product"
    price := row.price.getD 0
    stock := row.stock.getD 0
    image := match row.image with
      | some (a :: _) => "/api/image_proxy?file_token=" ++ a.file_token
      | _ => ""
    description := match row.description with
      | some (s :: _) => s.text
      | _ => ""
    type := (row.type).getD ""
    unit := (row.unit).getD "" }

/-- getProducts: parseInt(url.searchParams.get(pageSize-param) or-else "9", 10);
a null or empty query value falls back to the literal "9"; none models NaN. -/
def getProductsPageSize (p : Option String) : Option Int :=
  match p with
  | none => jsParseInt "9"
  | some s => if s = "" then jsParseInt "9" else jsParseInt s

/-- fetchProductsFromFeishu: the page_size query parameter is appended only when
the pageSize number is truthy (not NaN and not 0). -/
def searchPageSizeParam (pageSize : Option Int) : Option Int :=
  match pageSize with
  | none => none
  | some n => if n = 0 then none else some n

/-- The page_size value actually forwarded to the external search endpoint for a
given raw pageSize query value (none: the parameter is omitted). -/
def forwardedPageSize (p : Option String) : Option Int :=
  searchPageSizeParam (getProductsPageSize p)

/- ## Media Proxy (handleImageProxy in src/products.ts) -/

/-- An HTTP response as far as the proxy manipulates it. -/
structure HttpResponse where
  status : Nat
  statusText : String
  headers : List (String × String)
  body : String
deriving DecidableEq, Repr

/-- Headers.set: replace any existing value for the key. -/
def setHeader (hs : List (String × String)) (k v : String) : List (String × String) :=
  hs.filter (fun p => p.fst ≠ k) ++ [(k, v)]

/-- Look up a header value. -/
def getHeader (hs : List (String × String)) (k : String) : Option String :=
  (hs.find? (fun p => p.fst = k)).map (fun p => p.snd)

/-- response.ok of the Fetch API: status in the 2xx range. -/
def responseOk (r : HttpResponse) : Bool :=
  decide (200 ≤ r.status) && decide (r.status < 300)

/-- The outcome of one handleImageProxy invocation. -/
inductive ProxyOutcome where
  | missingToken
  | cacheHit (r : HttpResponse)
  | success (r : HttpResponse)
  | mediaFetchError (statusText : String)
deriving DecidableEq, Repr

/-- handleImageProxy, with the edge-cache entry for this request URL and the
upstream media response as parameters (token acquisition is modelled as
succeeding whenever the media fetch is reached). Returns the outcome, the cache
entry for this URL after the call, and the number of outbound fetches performed
(token fetch plus media fetch). -/
def handleImageProxy (fileToken : Option String) (cached : Option HttpResponse)
    (upstream : HttpResponse) : ProxyOutcome × Option HttpResponse × Nat :=
  match fileToken with
  | none => (ProxyOutcome.missingToken, cached, 0)
  | some t =>
    if t = "" then (ProxyOutcome.missingToken, cached, 0)
    else
      match cached with
      | some r => (ProxyOutcome.cacheHit r, cached, 0)
      | none =>
        if responseOk upstream then
          let resp : HttpResponse :=
            { upstream with
              headers := setHeader upstream.headers "Cache-Control" "public, max-age=86400" }
          (ProxyOutcome.success resp, some resp, 2)
        else
          (ProxyOutcome.mediaFetchError upstream.statusText, none, 2)

/-- The HTTP status handleImageProxy's caller observes: the thrown media-fetch
error is caught and rendered as 500, a missing token as 400. -/
def renderProxyStatus : ProxyOutcome → Nat
  | ProxyOutcome.missingToken => 400
  | ProxyOutcome.cacheHit r => r.status
  | ProxyOutcome.success r => r.status
  | ProxyOutcome.mediaFetchError _ => 500

/- ## Order Writer (createOrder in src/orders.ts) -/

/-- The authenticated user as supplied by requireAuth. -/
structure User where
  userId : Int
  username : String
deriving DecidableEq, Repr

/-- One requested order item from the request body. -/
structure OrderItem where
  id : String
  quantity : Int
deriving DecidableEq, Repr

/-- An address row from the D1 addresses table. -/
structure Address where
  recipient_name : String
  phone : String
  address : String
deriving DecidableEq, Repr

/-- The result of the per-item Feishu record fetch: a row, the 254404
record-not-found API error, or any other API error (rethrown by the handler). -/
inductive ProductLookup where
  | found (row : ProductRow)
  | notFound
  | apiError (msg : String)

/-- The error taxonomy of createOrder. -/
inductive OrderError where
  | validationError
  | addressNotFound
  | insufficientStock (productName : String) (currentStock : Int) (requested : Int)
  | productNotFound (itemId : String)
  | externalError (msg : String)
  | orderCreationError
deriving DecidableEq, Repr

/-- currentStock as createOrder reads it: the 库存剩余 field or-else 0. -/
def jsStock (row : ProductRow) : Int :=
  row.stock.getD 0

/-- currentPrice as createOrder reads it: the 商品单价 field or-else 0. -/
def jsPrice (row : ProductRow) : Rat :=
  row.price.getD 0

/-- productName as createOrder reads it: first 商品名称 span's text, or-else
the literal Unknown Product. -/
def jsProductName (row : ProductRow) : String :=
  match row.name with
  | some (s :: _) => s.text
  | _ => "Unknown Product"

/-- A validated item: the request item with the snapshotted price and name. -/
structure ValidatedItem where
  id : String
  quantity : Int
  currentPrice : Rat
  productName : String
deriving DecidableEq, Repr

/-- One line-item row as createOrder constructs it for the batch create. -/
structure OrderRecord where
  orderId : String            -- 订单号
  productRef : List String    -- 商品名称 (link field, singleton list)
  status : String             -- 订单状态
  username : String           -- 用户名称
  quantity : Int              -- 订购数量
  price : Rat                 -- 下单单价
  recipientName : String      -- 收货人
  phone : String              -- 联系方式
  address : String            -- 收货地址
deriving DecidableEq, Repr

/-- An outbound call to the external tabular service. -/
inductive ExtCall where
  | getProduct (id : String)
  | batchCreate (records : List OrderRecord)
deriving DecidableEq, Repr

/-- The per-item validation loop of createOrder: for each item in order, fetch
the product row, map a 254404 failure to a product-not-found error, fail when
the requested quantity exceeds the current stock, otherwise snapshot the price
and name. The second component is the trace of external calls performed. -/
def validateItems (lookup : String → ProductLookup) :
    List OrderItem → Except OrderError (List ValidatedItem) × List ExtCall
  | [] => (Except.ok [], [])
  | item :: rest =>
    match lookup item.id with
    | ProductLookup.notFound =>
      (Except.error (OrderError.productNotFound item.id), [ExtCall.getProduct item.id])
    | ProductLookup.apiError m =>
      (Except.error (OrderError.externalError m), [ExtCall.getProduct item.id])
    | ProductLookup.found row =>
      if jsStock row < item.quantity then
        (Except.error
           (OrderError.insufficientStock (jsProductName row) (jsStock row) item.quantity),
         [ExtCall.getProduct item.id])
      else
        match validateItems lookup rest with
        | (Except.error e, tr) => (Except.error e, ExtCall.getProduct item.id :: tr)
        | (Except.ok vs, tr) =>
          (Except.ok
             ({ id := item.id, quantity := item.quantity,
                currentPrice := jsPrice row, productName := jsProductName row } :: vs),
           ExtCall.getProduct item.id :: tr)

/-- The record built for one validated item. -/
def recordOfItem (orderId : String) (user : User) (addr : Address)
    (v : ValidatedItem) : OrderRecord :=
  { orderId := orderId
    productRef := [v.id]
    status := "已下单"
    username := user.username
    quantity := v.quantity
    price := v.currentPrice
    recipientName := addr.recipient_name
    phone := addr.phone
    address := addr.address }

/-- A successful createOrder result: the generated order id and the rows sent
to the batch-create endpoint. -/
structure CreateOrderResult where
  orderId : String
  records : List OrderRecord
deriving DecidableEq, Repr

/-- createOrder: input validation, address-ownership lookup (the D1 query by
addressId and userId, its result passed as the address parameter), per-item
stock validation, record construction sharing one generated orderId, and the
batch create (batchOk tells whether it succeeds). Returns the result or error
together with the trace of external tabular calls performed. -/
def createOrder (user : User) (items : List OrderItem) (addressId : Option String)
    (address : Option Address) (lookup : String → ProductLookup)
    (orderId : String) (batchOk : Bool) :
    Except OrderError CreateOrderResult × List ExtCall :=
  if items = [] ∨ addressId = none ∨ addressId = some "" then
    (Except.error OrderError.validationError, [])
  else
    match address with
    | none => (Except.error OrderError.addressNotFound, [])
    | some addr =>
      match validateItems lookup items with
      | (Except.error e, tr) => (Except.error e, tr)
      | (Except.ok vs, tr) =>
        let records := vs.map (recordOfItem orderId user addr)
        if batchOk then
          (Except.ok { orderId := orderId, records := records },
           tr ++ [ExtCall.batchCreate records])
        else
          (Except.error OrderError.orderCreationError,
           tr ++ [ExtCall.batchCreate records])

/- ## Order Reader (getUserOrders in src/orders.ts) -/

/-- A scalar-bearing field of an order row: either absent, a plain string
value, or an array of rich-text spans (the Array.isArray branch). -/
inductive ScalarField where
  | absent
  | text (s : String)
  | spans (l : List TextSpan)
deriving DecidableEq, Repr

/-- Array.isArray(f) ? f[0]?.text : f — the raw unwrap, before truthiness. -/
def unwrapScalar : ScalarField → Option String
  | ScalarField.absent => none
  | ScalarField.text s => some s
  | ScalarField.spans [] => none
  | ScalarField.spans (x :: _) => some x.text

/-- The unwrapped scalar with the or-else-empty default applied. -/
def scalarOrEmpty (f : ScalarField) : String :=
  (unwrapScalar f).getD ""

/-- The order id a row contributes: none when the field is absent, unwraps to
no span text, or unwraps to the empty string (the if-not-orderId-continue). -/
def effectiveOrderId (f : ScalarField) : Option String :=
  match unwrapScalar f with
  | none => none
  | some s => if s = "" then none else some s

/-- The 商品名称 link field of an order row. -/
structure LinkField where
  link_record_ids : Option (List String)
deriving DecidableEq, Repr

/-- The 订单金额 field: a complex object whose value member is an array. -/
structure AmountField where
  value : Option (List Rat)
deriving DecidableEq, Repr

/-- The 订购数量 field value handed to parseInt: absent, a number, or a string. -/
inductive QuantityField where
  | absent
  | num (n : Int)
  | str (s : String)
deriving DecidableEq, Repr

/-- parseInt(fields value) or-else 1: an absent field (parseInt of undefined is
NaN) and an unparsable string give 1; a parsed or numeric 0 is falsy and also
gives 1. -/
def parseQuantity : QuantityField → Int
  | QuantityField.absent => 1
  | QuantityField.num n => if n = 0 then 1 else n
  | QuantityField.str s =>
    match jsParseInt s with
    | none => 1
    | some n => if n = 0 then 1 else n

/-- fields 订单金额 ?.value?.[0] or-else 0. -/
def unwrapAmount : Option AmountField → Rat
  | some f =>
    match f.value with
    | some (x :: _) => x
    | _ => 0
  | none => 0

/-- One raw line-item row as returned by the order-table search, with exactly
the fields getUserOrders reads. -/
structure OrderRow where
  orderId : ScalarField          -- 订单号
  status : Option String         -- 订单状态
  productName : Option LinkField -- 商品名称
  quantity : QuantityField       -- 订购数量
  amount : Option AmountField    -- 订单金额
  createdTime : Option Int       -- 下单时间
  recipient : ScalarField        -- 收货人
  phone : Option String          -- 联系方式
  address : ScalarField          -- 收货地址
deriving DecidableEq, Repr

/-- The five frontend order statuses plus pending. -/
inductive OrderStatus where
  | pending
  | processing
  | shipped
  | received
  | completed
  | cancelled
deriving DecidableEq, Repr

/-- The switch mapping the Feishu status vocabulary to the frontend enum; every
unrecognized value falls through to pending. -/
def mapFeishuStatus (s : String) : OrderStatus :=
  if s = "已下单" then OrderStatus.pending
  else if s = "审核中" then OrderStatus.processing
  else if s = "发货中" then OrderStatus.shipped
  else if s = "已签收" then OrderStatus.received
  else if s = "已结算" then OrderStatus.completed
  else if s = "已取消" then OrderStatus.cancelled
  else OrderStatus.pending

/-- One aggregated line item of an order aggregate. -/
structure OrderItemOut where
  productId : String
  quantity : Int
  amount : Rat
deriving DecidableEq, Repr

/-- The derived order aggregate getUserOrders builds per order id. -/
structure OrderAgg where
  id : String
  status : OrderStatus
  items : List OrderItemOut
  total : Rat
  createdAt : Option Int
  recipientName : String
  phone : String
  address : String
deriving DecidableEq, Repr

/-- The line item extracted from one row: the first link_record_id or-else
unknown, the parsed quantity, and the unwrapped amount. -/
def itemOfRow (r : OrderRow) : OrderItemOut :=
  { productId :=
      match r.productName with
      | some f =>
        match f.link_record_ids with
        | some (x :: _) => if x = "" then "unknown" else x
        | _ => "unknown"
      | none => "unknown"
    quantity := parseQuantity r.quantity
    amount := unwrapAmount r.amount }

/-- The fresh aggregate opened on first sight of an order id, seeded from that
row's status, creation time and address fields, with no items and total 0. -/
def seedAgg (oid : String) (r : OrderRow) : OrderAgg :=
  { id := oid
    status :=
      match r.status with
      | some s => mapFeishuStatus s
      | none => OrderStatus.pending
    items := []
    total := 0
    createdAt := r.createdTime
    recipientName := scalarOrEmpty r.recipient
    phone := (r.phone).getD ""
    address := scalarOrEmpty r.address }

/-- Append the row's line item to an aggregate and accumulate its amount. -/
def addItem (a : OrderAgg) (r : OrderRow) : OrderAgg :=
  { a with
    items := a.items ++ [itemOfRow r]
    total := a.total + (itemOfRow r).amount }

/-- Process one row: skip it when it has no effective order id; otherwise add
its line item to the existing aggregate with that id, or open a new one at the
end (Map insertion order). -/
def processRow (aggs : List OrderAgg) (r : OrderRow) : List OrderAgg :=
  match effectiveOrderId r.orderId with
  | none => aggs
  | some oid =>
    if aggs.any (fun a => a.id == oid) then
      aggs.map (fun a => if a.id == oid then addItem a r else a)
    else
      aggs ++ [addItem (seedAgg oid r) r]

/-- The grouping loop of getUserOrders over the rows the search returned. -/
def aggregateOrders (rows : List OrderRow) : List OrderAgg :=
  rows.foldl processRow []

/-- getUserOrders: aggregate the user's rows and respond 200 with them. -/
def getUserOrders (rows : List OrderRow) : Nat × List OrderAgg :=
  (200, aggregateOrders rows)

/- ## getOrderById (src/orders.ts): the mock detail endpoint -/

/-- The hard-coded mock order getOrderById builds (time-valued fields are taken
from the clock and omitted here). -/
structure MockOrder where
  orderId : String
  userId : Int
  productId : String
  productName : String
  quantity : Int
  price : Rat
  totalAmount : Rat
  status : String
deriving DecidableEq, Repr

/-- getOrderById: for every order id and every requesting user it responds 200
with a mock order echoing the id; no row is read and no ownership is checked. -/
def getOrderById (orderId : String) (user : User) : Nat × MockOrder :=
  (200,
   { orderId := orderId
     userId := user.userId
     productId := "prod_001"
     productName := "精选苹果"
     quantity := 2
     price := (128 : Rat) / 10
     totalAmount := (256 : Rat) / 10
     status := "completed" })

/- ## Concrete inputs used by witnesses and counterexamples -/

/-- A product row with every optional field absent. -/
def emptyProductRow : ProductRow :=
  { record_id := "rec1", name := none, price := none, stock := none,
    image := none, description := none, type := none, unit := none }

/-- An order row with every field absent. -/
def bareRow : OrderRow :=
  { orderId := ScalarField.absent, status := none, productName := none,
    quantity := QuantityField.absent, amount := none, createdTime := none,
    recipient := ScalarField.absent, phone := none, address := ScalarField.absent }

/-- A concrete aggregate with no items and total 0. -/
def emptyAgg : OrderAgg :=
  { id := "o1", status := OrderStatus.pending, items := [], total := 0,
    createdAt := none, recipientName := "", phone := "", address := "" }

/-- A concrete successful upstream media response. -/
def okUpstream : HttpResponse :=
  { status := 200, statusText := "OK", headers := [("Content-Type", "image/png")],
    body := "IMG" }

/-- A concrete requesting user. -/
def wUser : User := { userId := 1, username := "alice" }

/-- A concrete one-item order request. -/
def wItems : List OrderItem := [{ id := "p1", quantity := 2 }]

/-- A concrete address owned by the requesting user. -/
def wAddr : Address :=
  { recipient_name := "Alice", phone := "13800000000", address := "A street 1" }

/-- A concrete product row with stock 5 and price 12.5. -/
def wRow : ProductRow :=
  { record_id := "p1", name := some [{ text := "Apple" }], price := some ((25 : Rat) / 2),
    stock := some 5, image := none, description := none, type := some "fruit",
    unit := some "kg" }

/-- The same product row with stock 1, below the requested quantity 2. -/
def wLowRow : ProductRow := { wRow with stock := some 1 }

/-- A product table where every id resolves to the stock-5 row. -/
def wLookup : String → ProductLookup := fun _ => ProductLookup.found wRow

/-- A product table where every id resolves to the stock-1 row. -/
def wLowLookup : String → ProductLookup := fun _ => ProductLookup.found wLowRow

/-- The result the concrete successful createOrder call produces. -/
def wRes : CreateOrderResult :=
  { orderId := "ord-1",
    records := [recordOfItem "ord-1" wUser wAddr
      { id := "p1", quantity := 2, currentPrice := (25 : Rat) / 2, productName := "Apple" }] }

/-- The line-item row the external search returns for that order. -/
def wOrderRow : OrderRow :=
  { orderId := ScalarField.text "ord-1", status := some "已下单",
    productName := some { link_record_ids := some ["p1"] },
    quantity := QuantityField.num 2, amount := some { value := some [25] },
    createdTime := some 1700000000000, recipient := ScalarField.text "Alice",
    phone := some "13800000000", address := ScalarField.text "A street 1" }

end Centery

namespace Centery

/- ## Theorems -/

/-- C3 evaluation: getOrderById responds 200 with a mock order for every order
id and every requesting user; it never performs an ownership check and never
answers 404, contrary to the specified NotFoundError behaviour. -/
theorem getOrderById_always_200 (orderId : String) (user : User) :
    (getOrderById orderId user).fst = 200 ∧ (getOrderById orderId user).fst ≠ 404 := by
  refine ⟨rfl, ?_⟩
  simp [getOrderById]

/-- C5: the status mapping is a total function into the six-member frontend
enum, and every string other than the six recognized external values maps to
pending. -/
theorem mapFeishuStatus_total_and_default (s : String) :
    (mapFeishuStatus s = OrderStatus.pending ∨ mapFeishuStatus s = OrderStatus.processing ∨
     mapFeishuStatus s = OrderStatus.shipped ∨ mapFeishuStatus s = OrderStatus.received ∨
     mapFeishuStatus s = OrderStatus.completed ∨ mapFeishuStatus s = OrderStatus.cancelled) ∧
    (s ≠ "已下单" → s ≠ "审核中" → s ≠ "发货中" → s ≠ "已签收" → s ≠ "已结算" →
     s ≠ "已取消" → mapFeishuStatus s = OrderStatus.pending) := by
  constructor
  · unfold mapFeishuStatus
    split_ifs <;> tauto
  · intro h1 h2 h3 h4 h5 h6
    rw [mapFeishuStatus, if_neg h1, if_neg h2, if_neg h3, if_neg h4, if_neg h5, if_neg h6]

/-- C5 witness: an unrecognized status value maps to pending. -/
theorem mapFeishuStatus_total_and_default_witness :
    mapFeishuStatus "配货中" = OrderStatus.pending :=
  (mapFeishuStatus_total_and_default "配货中").2 (by decide) (by decide) (by decide)
    (by decide) (by decide) (by decide)

/-- C6 counterexample: on a row with an absent name the row-to-Product mapping
yields the literal Unnamed Product, not the empty string the claim states. -/
theorem mapFeishuRowToProduct_missing_name_not_empty :
    (mapFeishuRowToProduct emptyProductRow).name = "Unnamed Product" ∧
    (mapFeishuRowToProduct emptyProductRow).name ≠ "" := by
  decide

/-- C6 amended: the row-to-Product mapping is total over raw rows; a missing
price or stock maps to 0, a missing or empty description maps to the empty
string, a missing type or unit maps to the empty string, a missing or empty
image maps to the empty string, and a missing or empty name maps to the
literal Unnamed Product. -/
theorem mapFeishuRowToProduct_defaults (row : ProductRow) :
    (row.price = none → (mapFeishuRowToProduct row).price = 0) ∧
    (row.stock = none → (mapFeishuRowToProduct row).stock = 0) ∧
    ((row.description = none ∨ row.description = some []) →
      (mapFeishuRowToProduct row).description = "") ∧
    (row.type = none → (mapFeishuRowToProduct row).type = "") ∧
    (row.unit = none → (mapFeishuRowToProduct row).unit = "") ∧
    ((row.image = none ∨ row.image = some []) → (mapFeishuRowToProduct row).image = "") ∧
    ((row.name = none ∨ row.name = some []) →
      (mapFeishuRowToProduct row).name = "Unnamed Product") := by
  refine ⟨fun hp => ?_, fun hs => ?_, fun hd => ?_, fun ht => ?_, fun hu => ?_,
    fun hi => ?_, fun hn => ?_⟩
  · simp [mapFeishuRowToProduct, hp]
  · simp [mapFeishuRowToProduct, hs]
  · rcases hd with hd | hd <;> simp [mapFeishuRowToProduct, hd]
  · simp [mapFeishuRowToProduct, ht]
  · simp [mapFeishuRowToProduct, hu]
  · rcases hi with hi | hi <;> simp [mapFeishuRowToProduct, hi]
  · rcases hn with hn | hn <;> simp [mapFeishuRowToProduct, hn]

/-- C6 witness: the defaults evaluated on the all-absent row. -/
theorem mapFeishuRowToProduct_defaults_witness :
    (mapFeishuRowToProduct emptyProductRow).price = 0 ∧
    (mapFeishuRowToProduct emptyProductRow).name = "Unnamed Product" :=
  ⟨(mapFeishuRowToProduct_defaults emptyProductRow).1 rfl,
   (mapFeishuRowToProduct_defaults emptyProductRow).2.2.2.2.2.2 (Or.inl rfl)⟩

/-- C7 counterexample: a negative pageSize is forwarded unchanged to the
external search endpoint rather than rejected, a zero pageSize is silently
omitted, and a non-numeric pageSize is omitted rather than defaulted. -/
theorem forwardedPageSize_not_rejected :
    forwardedPageSize (some "-5") = some (-5) ∧
    forwardedPageSize (some "0") = none ∧
    forwardedPageSize (some "abc") = none ∧
    forwardedPageSize (some "abc") ≠ some 9 := by
  decide

/-- C7 amended: pageSize defaults to 9 only when the query value is absent or
empty; a value that does not parse as an integer yields no page_size in the
external request; a value parsing to 0 likewise omits page_size; a value
parsing to any other integer, negative ones included, is forwarded unchanged;
no value is rejected as a caller error. -/
theorem forwardedPageSize_spec (p : Option String) :
    (p = none → forwardedPageSize p = some 9) ∧
    (p = some "" → forwardedPageSize p = some 9) ∧
    (∀ s, p = some s → s ≠ "" → jsParseInt s = none → forwardedPageSize p = none) ∧
    (∀ s, p = some s → s ≠ "" → jsParseInt s = some 0 → forwardedPageSize p = none) ∧
    (∀ s n, p = some s → s ≠ "" → jsParseInt s = some n → n ≠ 0 →
      forwardedPageSize p = some n) := by
  refine ⟨fun hp => ?_, fun hp => ?_, fun s hp hs hparse => ?_, fun s hp hs hparse => ?_,
    fun s n hp hs hparse hn => ?_⟩
  · subst hp; decide
  · subst hp; decide
  · subst hp
    simp [forwardedPageSize, getProductsPageSize, hs, hparse, searchPageSizeParam]
  · subst hp
    simp [forwardedPageSize, getProductsPageSize, hs, hparse, searchPageSizeParam]
  · subst hp
    simp [forwardedPageSize, getProductsPageSize, hs, hparse, searchPageSizeParam, hn]

/-- C7 witness: a positive parsable pageSize is forwarded as given. -/
theorem forwardedPageSize_spec_witness :
    forwardedPageSize (some "7") = some 7 :=
  (forwardedPageSize_spec (some "7")).2.2.2.2 "7" 7 rfl (by decide) (by decide) (by decide)

/-- C9: a returned row whose order-identifier field is absent or unwraps to an
empty or undefined scalar is skipped by the grouping loop: the aggregates are
exactly those of the remaining rows, and the call still responds 200. -/
theorem getUserOrders_skips_rows_without_order_id (pre post : List OrderRow) (r : OrderRow)
    (h : effectiveOrderId r.orderId = none) :
    getUserOrders (pre ++ r :: post) = getUserOrders (pre ++ post) ∧
    (getUserOrders (pre ++ r :: post)).fst = 200 := by
  have hp : ∀ aggs, processRow aggs r = aggs := by
    intro aggs
    unfold processRow
    rw [h]
  refine ⟨?_, rfl⟩
  unfold getUserOrders aggregateOrders
  rw [List.foldl_append, List.foldl_append, List.foldl_cons, hp]

/-- C9 witness: a single row with an absent order id yields the same output as
no rows at all, with status 200. -/
theorem getUserOrders_skips_rows_witness :
    getUserOrders ([] ++ bareRow :: []) = getUserOrders ([] ++ []) ∧
    (getUserOrders ([] ++ bareRow :: [])).fst = 200 :=
  getUserOrders_skips_rows_without_order_id [] [] bareRow (by decide)

/-- C10: a line item whose quantity field is missing or does not parse as an
integer gets quantity 1, and a missing amount field yields amount 0 and leaves
the accumulated order total unchanged. -/
theorem listOrders_quantity_amount_defaults (r : OrderRow) (a : OrderAgg)
    (hq : r.quantity = QuantityField.absent ∨
          ∃ s, r.quantity = QuantityField.str s ∧ jsParseInt s = none)
    (ha : r.amount = none) :
    (itemOfRow r).quantity = 1 ∧ (itemOfRow r).amount = 0 ∧
    (addItem a r).total = a.total := by
  have h1 : parseQuantity r.quantity = 1 := by
    rcases hq with hq | ⟨s, hq, hs⟩
    · simp [hq, parseQuantity]
    · simp [hq, parseQuantity, hs]
  have h2 : unwrapAmount r.amount = 0 := by simp [ha, unwrapAmount]
  refine ⟨h1, h2, ?_⟩
  simp [addItem, itemOfRow, h2]

/-- Header lookup after a set finds the value just set. -/
theorem getHeader_setHeader (hs : List (String × String)) (k v : String) :
    getHeader (setHeader hs k v) k = some v := by
  unfold getHeader setHeader
  induction hs with
  | nil => simp
  | cons p t ih =>
    by_cases h : p.fst = k
    · simp [List.filter_cons, h]
    · simp [List.filter_cons, h, List.find?_cons]

/-- C4: when the requested items are nonempty and the addressId is present but
the D1 lookup by addressId and userId yields no address for the requesting
user, createOrder fails with the address-not-found error and the trace of
external tabular calls is empty: no external read or write occurs, and the
error reveals nothing about other users' addresses. -/
theorem createOrder_address_not_owned (user : User) (items : List OrderItem)
    (aid : String) (lookup : String → ProductLookup) (oid : String) (batchOk : Bool)
    (hne : items ≠ []) (haid : aid ≠ "") :
    createOrder user items (some aid) none lookup oid batchOk =
      (Except.error OrderError.addressNotFound, []) := by
  have hcond : ¬(items = [] ∨ (some aid : Option String) = none ∨
      (some aid : Option String) = some "") := by
    simp [hne, haid]
  unfold createOrder
  rw [if_neg hcond]

/-- C4 witness: a concrete call with an unowned address fails with
address-not-found and an empty external trace. -/
theorem createOrder_address_not_owned_witness :
    createOrder { userId := 1, username := "alice" } [{ id := "p1", quantity := 1 }]
        (some "a1") none (fun _ => ProductLookup.notFound) "ord-0" true =
      (Except.error OrderError.addressNotFound, []) :=
  createOrder_address_not_owned { userId := 1, username := "alice" }
    [{ id := "p1", quantity := 1 }] "a1" (fun _ => ProductLookup.notFound) "ord-0" true
    (by decide) (by decide)

/-- C8: the media proxy answers 400 without any outbound fetch when the file
token is missing; on a cache miss with a non-2xx upstream status it fails with
the media-fetch error, rendered 500; on a cache miss with a 2xx upstream it
returns the upstream response with a 24-hour public cache directive set and
stores that same response in the edge cache. -/
theorem handleImageProxy_spec (ft : Option String) (cached : Option HttpResponse)
    (up : HttpResponse) :
    (ft = none →
      handleImageProxy ft cached up = (ProxyOutcome.missingToken, cached, 0) ∧
      renderProxyStatus (handleImageProxy ft cached up).fst = 400) ∧
    (∀ t, ft = some t → t ≠ "" → cached = none → responseOk up = false →
      (handleImageProxy ft cached up).fst = ProxyOutcome.mediaFetchError up.statusText ∧
      renderProxyStatus (handleImageProxy ft cached up).fst = 500) ∧
    (∀ t, ft = some t → t ≠ "" → cached = none → responseOk up = true →
      ∃ resp,
        (handleImageProxy ft cached up).fst = ProxyOutcome.success resp ∧
        (handleImageProxy ft cached up).snd.fst = some resp ∧
        getHeader resp.headers "Cache-Control" = some "public, max-age=86400") := by
  refine ⟨fun hft => ?_, fun t hft ht hc hok => ?_, fun t hft ht hc hok => ?_⟩
  · subst hft
    exact ⟨rfl, rfl⟩
  · subst hft
    subst hc
    simp [handleImageProxy, ht, hok, renderProxyStatus]
  · subst hft
    subst hc
    refine ⟨{ up with
      headers := setHeader up.headers "Cache-Control" "public, max-age=86400" }, ?_, ?_, ?_⟩
    · simp [handleImageProxy, ht, hok]
    · simp [handleImageProxy, ht, hok]
    · exact getHeader_setHeader up.headers "Cache-Control" "public, max-age=86400"

/-- C8 witness: a concrete cache miss with a 2xx upstream stores and returns
the response carrying the 24-hour cache directive. -/
theorem handleImageProxy_spec_witness :
    ∃ resp,
      (handleImageProxy (some "tok") none okUpstream).fst = ProxyOutcome.success resp ∧
      (handleImageProxy (some "tok") none okUpstream).snd.fst = some resp ∧
      getHeader resp.headers "Cache-Control" = some "public, max-age=86400" :=
  (handleImageProxy_spec (some "tok") none okUpstream).2.2 "tok" rfl (by decide) rfl
    (by decide)

/-- C10 witness: the defaults evaluated on the all-absent row. -/
theorem listOrders_quantity_amount_defaults_witness :
    (itemOfRow bareRow).quantity = 1 ∧ (itemOfRow bareRow).amount = 0 ∧
    (addItem emptyAgg bareRow).total = emptyAgg.total :=
  listOrders_quantity_amount_defaults bareRow emptyAgg (Or.inl rfl) rfl

end Centery

namespace Centery

/-- Every external call recorded by the validation loop is a product fetch;
it never performs a write. -/
theorem validateItems_trace_only_gets (lookup : String → ProductLookup) :
    ∀ items : List OrderItem, ∀ c ∈ (validateItems lookup items).snd,
      ∃ id, c = ExtCall.getProduct id := by
  intro items
  induction items with
  | nil =>
    intro c hc
    simp [validateItems] at hc
  | cons item rest ih =>
    intro c hc
    simp only [validateItems] at hc
    split at hc
    · simp at hc
      exact ⟨item.id, hc⟩
    · simp at hc
      exact ⟨item.id, hc⟩
    · split at hc
      · simp at hc
        exact ⟨item.id, hc⟩
      · rcases hv : validateItems lookup rest with ⟨res, tr⟩
        rw [hv] at hc
        cases res with
        | error e =>
          simp at hc
          rcases hc with hc | hc
          · exact ⟨item.id, hc⟩
          · exact ih c (by rw [hv]; exact hc)
        | ok vs =>
          simp at hc
          rcases hc with hc | hc
          · exact ⟨item.id, hc⟩
          · exact ih c (by rw [hv]; exact hc)

/-- When every requested item resolves to a product row and some item requests
more than that product's stock, the validation loop fails with the
insufficient-stock error carrying that product's name, stock and the requested
quantity. -/
theorem validateItems_insufficient (lookup : String → ProductLookup) :
    ∀ items : List OrderItem,
      (∀ i ∈ items, ∃ row, lookup i.id = ProductLookup.found row) →
      (∃ i ∈ items, ∃ row, lookup i.id = ProductLookup.found row ∧ jsStock row < i.quantity) →
      ∃ i ∈ items, ∃ row, lookup i.id = ProductLookup.found row ∧ jsStock row < i.quantity ∧
        (validateItems lookup items).fst =
          Except.error
            (OrderError.insufficientStock (jsProductName row) (jsStock row) i.quantity) := by
  intro items
  induction items with
  | nil =>
    intro _ hbad
    rcases hbad with ⟨i, hi, _⟩
    exact absurd hi (List.not_mem_nil i)
  | cons item rest ih =>
    intro hall hbad
    rcases hall item (List.mem_cons_self item rest) with ⟨row, hrow⟩
    by_cases hq : jsStock row < item.quantity
    · refine ⟨item, List.mem_cons_self item rest, row, hrow, hq, ?_⟩
      simp only [validateItems, hrow, if_pos hq]
    · have hbad' : ∃ i ∈ rest, ∃ r,
          lookup i.id = ProductLookup.found r ∧ jsStock r < i.quantity := by
        rcases hbad with ⟨i, hi, r, hr, hlt⟩
        rcases List.mem_cons.mp hi with rfl | hi'
        · rw [hrow] at hr
          cases hr
          exact absurd hlt hq
        · exact ⟨i, hi', r, hr, hlt⟩
      have hall' : ∀ i ∈ rest, ∃ r, lookup i.id = ProductLookup.found r :=
        fun i hi => hall i (List.mem_cons_of_mem item hi)
      rcases ih hall' hbad' with ⟨i, hi, r, hr, hlt, hres⟩
      refine ⟨i, List.mem_cons_of_mem item hi, r, hr, hlt, ?_⟩
      simp only [validateItems, hrow, if_neg hq]
      rcases hv : validateItems lookup rest with ⟨res, tr⟩
      rw [hv] at hres
      cases res with
      | error e =>
        simp at hres
        rw [hres]
      | ok vs =>
        simp at hres

/-- C1: for a well-formed createOrder call in which every item resolves to a
product row, if any item requests strictly more than that product's stock at
validation time, the whole call fails with the insufficient-stock error
carrying the product name, its current stock and the requested quantity, and
the trace contains no batch-create call: zero line-item rows are written. -/
theorem createOrder_insufficient_stock (user : User) (items : List OrderItem)
    (aid : String) (addr : Address) (lookup : String → ProductLookup)
    (oid : String) (batchOk : Bool)
    (hne : items ≠ []) (haid : aid ≠ "")
    (hall : ∀ i ∈ items, ∃ row, lookup i.id = ProductLookup.found row)
    (hbad : ∃ i ∈ items, ∃ row,
      lookup i.id = ProductLookup.found row ∧ jsStock row < i.quantity) :
    (∃ i ∈ items, ∃ row, lookup i.id = ProductLookup.found row ∧ jsStock row < i.quantity ∧
       (createOrder user items (some aid) (some addr) lookup oid batchOk).fst =
         Except.error
           (OrderError.insufficientStock (jsProductName row) (jsStock row) i.quantity)) ∧
    (∀ recs, ExtCall.batchCreate recs ∉
       (createOrder user items (some aid) (some addr) lookup oid batchOk).snd) := by
  have hcond : ¬(items = [] ∨ (some aid : Option String) = none ∨
      (some aid : Option String) = some "") := by
    simp [hne, haid]
  rcases validateItems_insufficient lookup items hall hbad with ⟨i, hi, row, hrow, hlt, hres⟩
  rcases hv : validateItems lookup items with ⟨res, tr⟩
  rw [hv] at hres
  simp at hres
  subst hres
  have hco : createOrder user items (some aid) (some addr) lookup oid batchOk =
      (Except.error
         (OrderError.insufficientStock (jsProductName row) (jsStock row) i.quantity), tr) := by
    unfold createOrder
    rw [if_neg hcond]
    simp only [hv]
  constructor
  · exact ⟨i, hi, row, hrow, hlt, by rw [hco]⟩
  · intro recs hmem
    rw [hco] at hmem
    have hget := validateItems_trace_only_gets lookup items (ExtCall.batchCreate recs)
      (by rw [hv]; exact hmem)
    rcases hget with ⟨id, hid⟩
    simp at hid

/-- C1 witness: a concrete call requesting 2 of a product with stock 1 fails
with the insufficient-stock error and writes nothing. -/
theorem createOrder_insufficient_stock_witness :
    (∃ i ∈ wItems, ∃ row, wLowLookup i.id = ProductLookup.found row ∧
       jsStock row < i.quantity ∧
       (createOrder wUser wItems (some "a1") (some wAddr) wLowLookup "ord-2" true).fst =
         Except.error
           (OrderError.insufficientStock (jsProductName row) (jsStock row) i.quantity)) ∧
    (∀ recs, ExtCall.batchCreate recs ∉
       (createOrder wUser wItems (some "a1") (some wAddr) wLowLookup "ord-2" true).snd) :=
  createOrder_insufficient_stock wUser wItems "a1" wAddr wLowLookup "ord-2" true
    (by decide) (by decide)
    (fun i _ => ⟨wLowRow, rfl⟩)
    ⟨{ id := "p1", quantity := 2 }, by decide, wLowRow, rfl, by decide⟩

/-- A run of the grouping loop that starts from one aggregate whose id every
row carries stays a single aggregate accumulating those rows. -/
theorem processRow_single (oid : String) :
    ∀ (rows : List OrderRow) (a : OrderAgg), a.id = oid →
      (∀ r ∈ rows, effectiveOrderId r.orderId = some oid) →
      rows.foldl processRow [a] = [rows.foldl addItem a] := by
  intro rows
  induction rows with
  | nil => intro a _ _; rfl
  | cons r rest ih =>
    intro a ha hall
    have hr : effectiveOrderId r.orderId = some oid := hall r (List.mem_cons_self r rest)
    have hstep : processRow [a] r = [addItem a r] := by
      unfold processRow
      rw [hr]
      simp [ha]
    rw [List.foldl_cons, List.foldl_cons, hstep]
    exact ih (addItem a r) (by simp [addItem, ha])
      (fun x hx => hall x (List.mem_cons_of_mem r hx))

/-- Accumulating rows into an aggregate preserves the invariant that its total
is the sum of its items' amounts. -/
theorem foldl_addItem_total :
    ∀ (rows : List OrderRow) (a : OrderAgg),
      a.total = (a.items.map (fun it => it.amount)).sum →
      (rows.foldl addItem a).total =
        ((rows.foldl addItem a).items.map (fun it => it.amount)).sum := by
  intro rows
  induction rows with
  | nil => intro a h; exact h
  | cons r rest ih =>
    intro a h
    rw [List.foldl_cons]
    exact ih (addItem a r) (by simp [addItem, h])

/-- Accumulating rows never changes an aggregate's id. -/
theorem foldl_addItem_id :
    ∀ (rows : List OrderRow) (a : OrderAgg), (rows.foldl addItem a).id = a.id := by
  intro rows
  induction rows with
  | nil => intro a; rfl
  | cons r rest ih =>
    intro a
    rw [List.foldl_cons, ih]
    simp [addItem]

/-- A successful createOrder call returns the generated order id and every
record it batch-creates carries exactly that id. -/
theorem createOrder_ok_records (user : User) (items : List OrderItem)
    (addressId : Option String) (address : Option Address)
    (lookup : String → ProductLookup) (oid : String) (batchOk : Bool)
    (res : CreateOrderResult)
    (h : (createOrder user items addressId address lookup oid batchOk).fst = Except.ok res) :
    res.orderId = oid ∧ ∀ rec ∈ res.records, rec.orderId = oid := by
  unfold createOrder at h
  split at h
  · simp at h
  · split at h
    · simp at h
    · rename_i addr
      rcases hv : validateItems lookup items with ⟨vres, tr⟩
      rw [hv] at h
      cases vres with
      | error e => simp at h
      | ok vs =>
        simp only [] at h
        split at h
        · simp at h
          subst h
          refine ⟨rfl, fun rec hrec => ?_⟩
          rcases List.mem_map.mp hrec with ⟨v, _, hv2⟩
          rw [← hv2]
          rfl
        · simp at h

/-- C2: every record a successful createOrder call batch-creates carries the
one generated order identifier it returns, and the grouping loop applied to
the nonempty row set echoing that identifier reconstructs exactly one
aggregate whose total is the sum of its items' amounts. -/
theorem createOrder_roundtrip_single_aggregate
    (user : User) (items : List OrderItem) (addressId : Option String)
    (address : Option Address) (lookup : String → ProductLookup)
    (oid : String) (batchOk : Bool) (res : CreateOrderResult) (rows : List OrderRow)
    (hok : (createOrder user items addressId address lookup oid batchOk).fst = Except.ok res)
    (hrows : ∀ r ∈ rows, effectiveOrderId r.orderId = some oid)
    (hne : rows ≠ []) :
    res.orderId = oid ∧
    (∀ rec ∈ res.records, rec.orderId = res.orderId) ∧
    ∃ a, aggregateOrders rows = [a] ∧ a.id = oid ∧
      a.total = (a.items.map (fun it => it.amount)).sum := by
  obtain ⟨h1, h2⟩ := createOrder_ok_records user items addressId address lookup oid
    batchOk res hok
  refine ⟨h1, fun rec hrec => by rw [h1]; exact h2 rec hrec, ?_⟩
  rcases rows with _ | ⟨r0, rest⟩
  · exact absurd rfl hne
  have hr0 : effectiveOrderId r0.orderId = some oid := hrows r0 (List.mem_cons_self r0 rest)
  have hstart : processRow [] r0 = [addItem (seedAgg oid r0) r0] := by
    unfold processRow
    rw [hr0]
    simp
  have hid : (addItem (seedAgg oid r0) r0).id = oid := by simp [addItem, seedAgg]
  have hsingle := processRow_single oid rest (addItem (seedAgg oid r0) r0) hid
    (fun x hx => hrows x (List.mem_cons_of_mem r0 hx))
  have htotal := foldl_addItem_total rest (addItem (seedAgg oid r0) r0)
    (by simp [addItem, seedAgg])
  refine ⟨rest.foldl addItem (addItem (seedAgg oid r0) r0), ?_, ?_, htotal⟩
  · unfold aggregateOrders
    rw [List.foldl_cons, hstart, hsingle]
  · rw [foldl_addItem_id]
    exact hid

/-- C2 witness: a concrete successful one-item order whose echoed row set
reconstructs to a single aggregate with matching total. -/
theorem createOrder_roundtrip_witness :
    wRes.orderId = "ord-1" ∧
    (∀ rec ∈ wRes.records, rec.orderId = wRes.orderId) ∧
    ∃ a, aggregateOrders [wOrderRow] = [a] ∧ a.id = "ord-1" ∧
      a.total = (a.items.map (fun it => it.amount)).sum :=
  createOrder_roundtrip_single_aggregate wUser wItems (some "a1") (some wAddr)
    wLookup "ord-1" true wRes [wOrderRow]
    rfl (by decide) (by decide)

end Centery
